import Mathlib

/-!
Verification of the macOS keyboard backend of pynput
(`lib/pynput/keyboard/_darwin.py`): the `Key` enumeration, the event
synthesizer `KeyCode._event`, and the event interpreter
`Listener._handle` / `Listener._event_to_key`, shallowly embedded as
executable Lean definitions.

External OS quantities (Quartz constants, event-type tags, the
OS-computed Unicode string of an event) are modelled as plain numbers
and record fields; native events are a single record carrying the
fields that either side of the translation reads or writes.
-/

set_option autoImplicit false

namespace Darwin

/-! ### Quartz constants (external OS values, fixed by macOS headers) -/

def kCGEventKeyDown : Nat := 10
def kCGEventKeyUp : Nat := 11
def kCGEventFlagsChanged : Nat := 12
def NSSystemDefined : Nat := 14

def kCGEventFlagMaskShift : Nat := 0x00020000
def kCGEventFlagMaskControl : Nat := 0x00040000
def kCGEventFlagMaskAlternate : Nat := 0x00080000
def kCGEventFlagMaskCommand : Nat := 0x00100000

/-- From the source: `kSystemDefinedEventMediaKeysSubtype = 8`. -/
def kSystemDefinedEventMediaKeysSubtype : Nat := 8

/-! ### NX media key identifiers (from hidsystem/ev_keymap.h, copied in the source) -/

def NX_KEYTYPE_SOUND_UP : Nat := 0
def NX_KEYTYPE_SOUND_DOWN : Nat := 1
def NX_KEYTYPE_BRIGHTNESS_UP : Nat := 2
def NX_KEYTYPE_BRIGHTNESS_DOWN : Nat := 3
def NX_KEYTYPE_CAPS_LOCK : Nat := 4
def NX_KEYTYPE_HELP : Nat := 5
def NX_POWER_KEY : Nat := 6
def NX_KEYTYPE_MUTE : Nat := 7
def NX_UP_ARROW_KEY : Nat := 8
def NX_DOWN_ARROW_KEY : Nat := 9
def NX_KEYTYPE_NUM_LOCK : Nat := 10
def NX_KEYTYPE_CONTRAST_UP : Nat := 11
def NX_KEYTYPE_CONTRAST_DOWN : Nat := 12
def NX_KEYTYPE_LAUNCH_PANEL : Nat := 13
def NX_KEYTYPE_EJECT : Nat := 14
def NX_KEYTYPE_VIDMIRROR : Nat := 15
def NX_KEYTYPE_PLAY : Nat := 16
def NX_KEYTYPE_NEXT : Nat := 17
def NX_KEYTYPE_PREVIOUS : Nat := 18
def NX_KEYTYPE_FAST : Nat := 19
def NX_KEYTYPE_REWIND : Nat := 20
def NX_KEYTYPE_ILLUMINATION_UP : Nat := 21
def NX_KEYTYPE_ILLUMINATION_DOWN : Nat := 22
def NX_KEYTYPE_ILLUMINATION_TOGGLE : Nat := 23

/-! ### The key-code value object -/

/-- A pynput `KeyCode` restricted to the attributes the darwin backend
reads: `vk` (scan code), `char` (the character the key produces; stored
as the string passed to `from_char`), and the platform extension
`_is_media`, which is `None` for ordinary keys and `True` for media
keys (three-state, as in the source, where absence and falsehood are
distinct for decode-table lookups). -/
structure KeyCode where
  vk : Option Nat
  char : Option String
  is_media : Option Bool
deriving DecidableEq, Repr

/-- `KeyCode.from_vk(vk)`. -/
def KeyCode.from_vk (vk : Nat) : KeyCode := ⟨some vk, none, none⟩

/-- `KeyCode.from_vk(vk, char=c)`: the keyword-argument form used by the
digit and space entries of the enumeration. -/
def KeyCode.from_vk_char (vk : Nat) (c : String) : KeyCode := ⟨some vk, some c, none⟩

/-- `KeyCode.from_char(c, vk=vk)`. -/
def KeyCode.from_char (c : String) (vk : Option Nat) : KeyCode := ⟨vk, some c, none⟩

/-- `KeyCode._from_media(vk)`, i.e. `from_vk(vk, _is_media=True)`. -/
def KeyCode.from_media (vk : Nat) : KeyCode := ⟨some vk, none, some true⟩

/-! ### The `Key` enumeration -/

/-- The names of the `Key` enum, one constructor per member, in source
order.  `end` is a Lean keyword, so the `end` key is written `end_`. -/
inductive KeyName where
  | alt | alt_l | alt_r | alt_gr
  | backspace | caps_lock
  | cmd | cmd_l | cmd_r
  | ctrl | ctrl_l | ctrl_r
  | delete | down | end_ | enter | esc
  | f1 | f2 | f3 | f4 | f5 | f6 | f7 | f8 | f9 | f10
  | f11 | f12 | f13 | f14 | f15 | f16 | f17 | f18 | f19 | f20
  | home | left | page_down | page_up | right
  | shift | shift_l | shift_r
  | space | tab | up | insert
  | one | two | three | four | five | six | seven | eight | nine
  | kp_zero | kp_one | kp_two | kp_three | kp_four
  | kp_five | kp_six | kp_seven | kp_eight | kp_nine
  | kp_equals | kp_divide | kp_multiply | kp_minus | kp_add
  | kp_enter | kp_decimal
  | media_volume_up | media_volume_down
  | brightness_up | brightness_down
  | power | media_volume_mute | num_lock
  | contrast_up | contrast_down | launch_panel | media_eject | vidmirror
  | media_play_pause | media_next | media_previous | media_fast | media_rewind
  | illumination_up | illumination_down | illumination_toggle
deriving DecidableEq, Repr, Fintype

/-- The value bound to each `Key` member, copied line for line from the
enumeration in the source. -/
def keyDef : KeyName → KeyCode
  | .alt => KeyCode.from_vk 0x3A
  | .alt_l => KeyCode.from_vk 0x3A
  | .alt_r => KeyCode.from_vk 0x3D
  | .alt_gr => KeyCode.from_vk 0x3D
  | .backspace => KeyCode.from_vk 0x33
  | .caps_lock => KeyCode.from_vk 0x39
  | .cmd => KeyCode.from_vk 0x37
  | .cmd_l => KeyCode.from_vk 0x37
  | .cmd_r => KeyCode.from_vk 0x36
  | .ctrl => KeyCode.from_vk 0x3B
  | .ctrl_l => KeyCode.from_vk 0x3B
  | .ctrl_r => KeyCode.from_vk 0x3E
  | .delete => KeyCode.from_vk 0x75
  | .down => KeyCode.from_vk 0x7D
  | .end_ => KeyCode.from_vk 0x77
  | .enter => KeyCode.from_vk 0x24
  | .esc => KeyCode.from_vk 0x35
  | .f1 => KeyCode.from_vk 0x7A
  | .f2 => KeyCode.from_vk 0x78
  | .f3 => KeyCode.from_vk 0x63
  | .f4 => KeyCode.from_vk 0x76
  | .f5 => KeyCode.from_vk 0x60
  | .f6 => KeyCode.from_vk 0x61
  | .f7 => KeyCode.from_vk 0x62
  | .f8 => KeyCode.from_vk 0x64
  | .f9 => KeyCode.from_vk 0x65
  | .f10 => KeyCode.from_vk 0x6D
  | .f11 => KeyCode.from_vk 0x67
  | .f12 => KeyCode.from_vk 0x6F
  | .f13 => KeyCode.from_vk 0x69
  | .f14 => KeyCode.from_vk 0x6B
  | .f15 => KeyCode.from_vk 0x71
  | .f16 => KeyCode.from_vk 0x6A
  | .f17 => KeyCode.from_vk 0x40
  | .f18 => KeyCode.from_vk 0x4F
  | .f19 => KeyCode.from_vk 0x50
  | .f20 => KeyCode.from_vk 0x5A
  | .home => KeyCode.from_vk 0x73
  | .left => KeyCode.from_vk 0x7B
  | .page_down => KeyCode.from_vk 0x79
  | .page_up => KeyCode.from_vk 0x74
  | .right => KeyCode.from_vk 0x7C
  | .shift => KeyCode.from_vk 0x38
  | .shift_l => KeyCode.from_vk 0x38
  | .shift_r => KeyCode.from_vk 0x3C
  | .space => KeyCode.from_vk_char 0x31 " "
  | .tab => KeyCode.from_vk 0x30
  | .up => KeyCode.from_vk 0x7E
  | .insert => KeyCode.from_vk 0x72
  | .one => KeyCode.from_vk_char 0x12 "1"
  | .two => KeyCode.from_vk_char 0x13 "2"
  | .three => KeyCode.from_vk_char 0x14 "3"
  | .four => KeyCode.from_vk_char 0x15 "4"
  | .five => KeyCode.from_vk_char 0x17 "5"
  | .six => KeyCode.from_vk_char 0x16 "6"
  | .seven => KeyCode.from_vk_char 0x1A "7"
  | .eight => KeyCode.from_vk_char 0x1C "8"
  | .nine => KeyCode.from_vk_char 0x19 "9"
  | .kp_zero => KeyCode.from_vk 0x52
  | .kp_one => KeyCode.from_vk 0x53
  | .kp_two => KeyCode.from_vk 0x54
  | .kp_three => KeyCode.from_vk 0x55
  | .kp_four => KeyCode.from_vk 0x56
  | .kp_five => KeyCode.from_vk 0x57
  | .kp_six => KeyCode.from_vk 0x58
  | .kp_seven => KeyCode.from_vk 0x59
  | .kp_eight => KeyCode.from_vk 0x5B
  | .kp_nine => KeyCode.from_vk 0x5C
  | .kp_equals => KeyCode.from_vk 0x51
  | .kp_divide => KeyCode.from_vk 0x4B
  | .kp_multiply => KeyCode.from_vk 0x43
  | .kp_minus => KeyCode.from_vk 0x4E
  | .kp_add => KeyCode.from_vk 0x45
  | .kp_enter => KeyCode.from_vk 0x4C
  | .kp_decimal => KeyCode.from_vk 0x41
  | .media_volume_up => KeyCode.from_media NX_KEYTYPE_SOUND_UP
  | .media_volume_down => KeyCode.from_media NX_KEYTYPE_SOUND_DOWN
  | .brightness_up => KeyCode.from_media NX_KEYTYPE_BRIGHTNESS_UP
  | .brightness_down => KeyCode.from_media NX_KEYTYPE_BRIGHTNESS_DOWN
  | .power => KeyCode.from_media NX_POWER_KEY
  | .media_volume_mute => KeyCode.from_media NX_KEYTYPE_MUTE
  | .num_lock => KeyCode.from_media NX_KEYTYPE_NUM_LOCK
  | .contrast_up => KeyCode.from_media NX_KEYTYPE_CONTRAST_UP
  | .contrast_down => KeyCode.from_media NX_KEYTYPE_CONTRAST_DOWN
  | .launch_panel => KeyCode.from_media NX_KEYTYPE_LAUNCH_PANEL
  | .media_eject => KeyCode.from_media NX_KEYTYPE_EJECT
  | .vidmirror => KeyCode.from_media NX_KEYTYPE_VIDMIRROR
  | .media_play_pause => KeyCode.from_media NX_KEYTYPE_PLAY
  | .media_next => KeyCode.from_media NX_KEYTYPE_NEXT
  | .media_previous => KeyCode.from_media NX_KEYTYPE_PREVIOUS
  | .media_fast => KeyCode.from_media NX_KEYTYPE_FAST
  | .media_rewind => KeyCode.from_media NX_KEYTYPE_REWIND
  | .illumination_up => KeyCode.from_media NX_KEYTYPE_ILLUMINATION_UP
  | .illumination_down => KeyCode.from_media NX_KEYTYPE_ILLUMINATION_DOWN
  | .illumination_toggle => KeyCode.from_media NX_KEYTYPE_ILLUMINATION_TOGGLE

/-- First quarter of the declaration order (split into chunks only to
keep list-literal elaboration fast; `keyOrder` is their concatenation). -/
def keyOrderA : List KeyName :=
  [.alt, .alt_l, .alt_r, .alt_gr, .backspace, .caps_lock,
   .cmd, .cmd_l, .cmd_r, .ctrl, .ctrl_l, .ctrl_r,
   .delete, .down, .end_, .enter, .esc,
   .f1, .f2, .f3, .f4, .f5, .f6, .f7]

/-- Second quarter of the declaration order. -/
def keyOrderB : List KeyName :=
  [.f8, .f9, .f10,
   .f11, .f12, .f13, .f14, .f15, .f16, .f17, .f18, .f19, .f20,
   .home, .left, .page_down, .page_up, .right,
   .shift, .shift_l, .shift_r,
   .space, .tab, .up, .insert]

/-- Third quarter of the declaration order. -/
def keyOrderC : List KeyName :=
  [.one, .two, .three, .four, .five, .six, .seven, .eight, .nine,
   .kp_zero, .kp_one, .kp_two, .kp_three, .kp_four,
   .kp_five, .kp_six, .kp_seven, .kp_eight, .kp_nine,
   .kp_equals, .kp_divide, .kp_multiply, .kp_minus, .kp_add,
   .kp_enter, .kp_decimal]

/-- Fourth quarter of the declaration order: the media keys. -/
def keyOrderD : List KeyName :=
  [.media_volume_up, .media_volume_down,
   .brightness_up, .brightness_down,
   .power, .media_volume_mute, .num_lock,
   .contrast_up, .contrast_down, .launch_panel, .media_eject, .vidmirror,
   .media_play_pause, .media_next, .media_previous, .media_fast, .media_rewind,
   .illumination_up, .illumination_down, .illumination_toggle]

/-- The members of `Key` in declaration order (Python enums iterate in
declaration order; this order drives the decode-table build). -/
def keyOrder : List KeyName := keyOrderA ++ keyOrderB ++ keyOrderC ++ keyOrderD

/-! ### Python-dict helpers -/

/-- Insertion with Python `dict` semantics: assigning to a key that is
already present overwrites its value in place; a fresh key is appended. -/
def dictInsert {α β : Type} [DecidableEq α] : List (α × β) → α → β → List (α × β)
  | [], k, v => [(k, v)]
  | (k0, v0) :: rest, k, v =>
      if k0 = k then (k0, v) :: rest else (k0, v0) :: dictInsert rest k v

/-- Lookup in a key-value list (Python `dict` access / `in` test). -/
def dictGet {α β : Type} [DecidableEq α] : List (α × β) → α → Option β
  | [], _ => none
  | (k0, v0) :: rest, k => if k0 = k then some v0 else dictGet rest k

/-- The decode-table key of a `Key` member: `(key.value.vk, key.value._is_media)`. -/
abbrev KeyPair := Option Nat × Option Bool

def keyPair (k : KeyName) : KeyPair := ((keyDef k).vk, (keyDef k).is_media)

/-- `Listener._SPECIAL_KEYS`: the dict comprehension
`{(key.value.vk, key.value._is_media): key for key in Key}`, built by
inserting the members in declaration order so that a later member
overwrites an earlier one at a colliding pair. -/
def SPECIAL_KEYS : List (KeyPair × KeyName) :=
  keyOrder.foldl (fun d k => dictInsert d (keyPair k) k) []

/-- `Listener._MODIFIER_FLAGS`: event flags of the modifier keys. -/
def MODIFIER_FLAGS : List (KeyName × Nat) :=
  [(.alt, kCGEventFlagMaskAlternate),
   (.alt_l, kCGEventFlagMaskAlternate),
   (.alt_r, kCGEventFlagMaskAlternate),
   (.cmd, kCGEventFlagMaskCommand),
   (.cmd_l, kCGEventFlagMaskCommand),
   (.cmd_r, kCGEventFlagMaskCommand),
   (.ctrl, kCGEventFlagMaskControl),
   (.ctrl_l, kCGEventFlagMaskControl),
   (.ctrl_r, kCGEventFlagMaskControl),
   (.shift, kCGEventFlagMaskShift),
   (.shift_l, kCGEventFlagMaskShift),
   (.shift_r, kCGEventFlagMaskShift)]

example : dictGet SPECIAL_KEYS (some 0x3A, none) = some KeyName.alt_l := by decide
example : dictGet SPECIAL_KEYS (some 0x39, none) = some KeyName.caps_lock := by decide
example : dictGet SPECIAL_KEYS (some 0, some true) = some KeyName.media_volume_up := by decide
example : dictGet SPECIAL_KEYS (some 9999, none) = none := by decide

/-! ### External tables and predicates -/

/-- Modelled from the spec: the `SYMBOLS` table imported from
`pynput._util.darwin_vks`, a module of this repository that is not
under `src/`.  Per the spec it is a read-only fixed table mapping
certain scan codes to the punctuation characters they produce when
Control is held; modelled here with representative entries (US layout
punctuation scan codes).  The claims depend only on membership, not on
the exact contents. -/
def SYMBOLS : List (Nat × String) :=
  [(0x18, "="), (0x1B, "-"), (0x21, "["), (0x1E, "]"),
   (0x29, ";"), (0x27, "\x27"), (0x2A, "\\"), (0x2B, ","),
   (0x2C, "/"), (0x2F, "."), (0x32, "`")]

/-- Modelled from Python's `str.isprintable` on a single character,
restricted to the code points this development evaluates it on: ASCII
control characters (below `0x20`) and DEL are not printable, the other
ASCII characters are, and code points above `0xA0` are treated as
printable. -/
def isPrintableChar (c : Char) : Bool :=
  (0x20 ≤ c.toNat && c.toNat < 0x7f) || (0xa0 < c.toNat)

/-- Python's `str.isprintable`: all characters printable; `True` on the
empty string.  Stated over the character list of the string. -/
def isPrintable (s : String) : Bool := s.data.all isPrintableChar

example : isPrintable "" = true := by decide
example : isPrintable "\x01" = false := by decide

/-! ### Native events -/

/-- A Quartz native event, restricted to the fields the backend reads
or writes.  `eventType` is the CG event type tag; `vkField` is the
`kCGKeyboardEventKeycode` integer field; `flags` is the
`CGEventGetFlags` / `CGEventSetFlags` bitmask; `subtype`, `data1` and
`data2` are the system-defined event payload; `nsFlags`, `location`,
`timestamp`, `windowNumber` and `context` are the remaining
`otherEventWithType` arguments; `unicodeString` is the Unicode string
payload (OS-computed for tapped events, `CGEventKeyboardSetUnicodeString`
for synthesized ones).  `malformed` models the external condition under
which reading the event's fields makes Quartz raise `IndexError`
("if the key code is invalid", per the source docstring of
`_event_to_key`). -/
structure NativeEvent where
  eventType : Nat
  vkField : Nat
  flags : Nat
  subtype : Nat
  data1 : Nat
  data2 : Int
  location : Int × Int
  nsFlags : Nat
  timestamp : Nat
  windowNumber : Int
  context : Int
  unicodeString : String
  malformed : Bool
deriving DecidableEq, Repr

/-! ### The event synthesizer (`KeyCode._event`) -/

/-- The modifier-flag word set by `CGEventSetFlags` in `KeyCode._event`:
one native bit per bare modifier symbol present in `modifiers` (the
`_l`/`_r` variants are not consulted). -/
def modFlags (modifiers : List KeyName) : Nat :=
  0
  ||| (if KeyName.alt ∈ modifiers then kCGEventFlagMaskAlternate else 0)
  ||| (if KeyName.cmd ∈ modifiers then kCGEventFlagMaskCommand else 0)
  ||| (if KeyName.ctrl ∈ modifiers then kCGEventFlagMaskControl else 0)
  ||| (if KeyName.shift ∈ modifiers then kCGEventFlagMaskShift else 0)

/-- `mapping.get(self.char)`: lookup of an optional character in the
layout mapping (a Python `dict.get` on a possibly-`None` key returns
`None`). -/
def mappingGet (mapping : List (String × Nat)) (c : Option String) : Option Nat :=
  match c with
  | none => none
  | some s => dictGet mapping s

/-- The scan-code resolution `vk = self.vk or mapping.get(self.char)`
at the top of `KeyCode._event`.  Python's `or` tests truthiness, so a
`vk` of `0` (not only a missing one) falls through to the layout
lookup. -/
def resolveVk (kc : KeyCode) (mapping : List (String × Nat)) : Option Nat :=
  match kc.vk with
  | some v => if v = 0 then mappingGet mapping kc.char else some v
  | none => mappingGet mapping kc.char

/-- `KeyCode._event(modifiers, mapping, is_pressed)`: this key as a
Quartz event.  Media keys build a system-defined `NSEvent` (converted
to a CG event) whose `data1` packs the virtual key and the press code;
ordinary keys build a keyboard event on the resolved scan code (`0`
when none resolves).  Both then receive the modifier flag word, and
when no scan code resolved but a character is present, the character
becomes the event's Unicode string payload.  Returns `none` when the
source would raise (a media key whose `vk` is `None` hits
`None << 16`). -/
def KeyCode.event (kc : KeyCode) (modifiers : List KeyName)
    (mapping : List (String × Nat)) (is_pressed : Bool) : Option NativeEvent :=
  let vk := resolveVk kc mapping
  let base : Option NativeEvent :=
    if kc.is_media = some true then
      match kc.vk with
      | none => none
      | some v => some
          { eventType := NSSystemDefined
            vkField := 0
            flags := 0
            subtype := kSystemDefinedEventMediaKeysSubtype
            data1 := (v <<< 16) ||| ((if is_pressed then 0xa else 0xb) <<< 8)
            data2 := -1
            location := (0, 0)
            nsFlags := if is_pressed then 0xa00 else 0xb00
            timestamp := 0
            windowNumber := 0
            context := 0
            unicodeString := ""
            malformed := false }
    else some
          { eventType := if is_pressed then kCGEventKeyDown else kCGEventKeyUp
            vkField := vk.getD 0
            flags := 0
            subtype := 0
            data1 := 0
            data2 := 0
            location := (0, 0)
            nsFlags := 0
            timestamp := 0
            windowNumber := 0
            context := 0
            unicodeString := ""
            malformed := false }
  base.map fun r =>
    let r := { r with flags := modFlags modifiers }
    if vk.isNone && kc.char.isSome
    then { r with unicodeString := kc.char.getD "" }
    else r

/-! ### The event interpreter (`Listener._event_to_key` and `Listener._handle`) -/

/-- The interpreter's result: a member of the `Key` enum or a plain
`KeyCode`. -/
inductive KeyUnion where
  | named (k : KeyName)
  | code (kc : KeyCode)
deriving DecidableEq, Repr

deriving instance DecidableEq for Except

/-- `Listener._event_to_key(event)`: convert a Quartz event to a key.
Raises (models `IndexError`, caught by `_handle`) when the event is
malformed; otherwise tries the special-key table on
`(vk, is_media)` where `is_media` is `True` exactly for system-defined
events, then the Control-chord symbol table when the OS-computed
Unicode string is not printable, then the Unicode string itself when
non-empty, and finally falls back on a bare virtual key code. -/
def eventToKey (ev : NativeEvent) : Except Unit KeyUnion :=
  if ev.malformed then .error () else
  match dictGet SPECIAL_KEYS (some ev.vkField,
      if ev.eventType = NSSystemDefined then some true else none) with
  | some k => .ok (.named k)
  | none =>
    if !isPrintable ev.unicodeString && (dictGet SYMBOLS ev.vkField).isSome
        && (ev.flags &&& kCGEventFlagMaskControl != 0) then
      .ok (.code ⟨some ev.vkField, dictGet SYMBOLS ev.vkField, none⟩)
    else if ev.unicodeString.length > 0 then
      .ok (.code ⟨some ev.vkField, some ev.unicodeString, none⟩)
    else
      .ok (.code ⟨some ev.vkField, none, none⟩)

/-- The `key` variable of `Listener._handle`: the decoded key, with the
`IndexError` from `_event_to_key` caught and replaced by `None`. -/
def decodedKey (ev : NativeEvent) : Option KeyUnion :=
  match eventToKey ev with
  | .ok k => some k
  | .error _ => none

/-- One callback performed by the listener. -/
inductive Callback where
  | press (k : Option KeyUnion)
  | release (k : Option KeyUnion)
deriving DecidableEq, Repr

/-- `self._MODIFIER_FLAGS.get(key, ...)` can only hit when the decoded
key is a `Key` member (the dict is keyed by enum members; `None` and
`KeyCode` arguments are simply absent). -/
def modifierFlagsLookup (key : Option KeyUnion) : Option Nat :=
  match key with
  | some (.named k) => dictGet MODIFIER_FLAGS k
  | _ => none

/-- `self._MODIFIER_FLAGS.get(key, 0)`. -/
def modifierFlagsGet (key : Option KeyUnion) : Nat :=
  (modifierFlagsLookup key).getD 0

/-- `Listener._handle`: the callbacks performed for one tapped event,
in order.  Key-down and key-up events report a press resp. release of
the decoded key (which is `None` when decoding raised); a remaining
event that decoded to caps lock fakes a press then a release; a
system-defined event with the media-keys subtype decodes `data1` and
reports a press when the status byte is `0x0a`, silently ignoring
unknown media codes; any other event falls through to the
modifier-change branch, which reports a press exactly when the event's
flag word has the decoded key's modifier bit set. -/
def handle (ev : NativeEvent) : List Callback :=
  if ev.eventType = kCGEventKeyDown then
    [.press (decodedKey ev)]
  else if ev.eventType = kCGEventKeyUp then
    [.release (decodedKey ev)]
  else if decodedKey ev = some (.named .caps_lock) then
    [.press (decodedKey ev), .release (decodedKey ev)]
  else if ev.eventType = NSSystemDefined then
    if ev.subtype = kSystemDefinedEventMediaKeysSubtype then
      match dictGet SPECIAL_KEYS
          (some ((ev.data1 &&& 0xffff0000) >>> 16), some true) with
      | some k =>
          if ((ev.data1 &&& 0x0000ffff) &&& 0xff00) >>> 8 = 0xa then
            [.press (some (.named k))]
          else
            [.release (some (.named k))]
      | none => []
    else []
  else
    if ev.flags &&& modifierFlagsGet (decodedKey ev) ≠ 0 then
      [.press (decodedKey ev)]
    else
      [.release (decodedKey ev)]

/-! ### Concrete events used as witnesses -/

/-- A malformed key-down event (scan code 9999): reading its fields
makes the OS raise. -/
def malformedEvent : NativeEvent :=
  { eventType := kCGEventKeyDown, vkField := 9999, flags := 0, subtype := 0,
    data1 := 0, data2 := 0, location := (0, 0), nsFlags := 0, timestamp := 0,
    windowNumber := 0, context := 0, unicodeString := "", malformed := true }

/-- A system-defined media-keys event whose `data1` packs scan code
`0x10` (play/pause) with press code `0x0a`. -/
def mediaPlayEvent : NativeEvent :=
  { eventType := NSSystemDefined, vkField := 0, flags := 0,
    subtype := kSystemDefinedEventMediaKeysSubtype,
    data1 := (0x10 <<< 16) ||| (0xa <<< 8), data2 := 0, location := (0, 0),
    nsFlags := 0, timestamp := 0, windowNumber := 0, context := 0,
    unicodeString := "", malformed := false }

/-- A flags-changed event on the caps-lock scan code (the single toggle
notification macOS delivers for caps lock). -/
def capsToggleEvent : NativeEvent :=
  { eventType := kCGEventFlagsChanged, vkField := 0x39, flags := 0, subtype := 0,
    data1 := 0, data2 := 0, location := (0, 0), nsFlags := 0, timestamp := 0,
    windowNumber := 0, context := 0, unicodeString := "", malformed := false }

/-- A key-down event on a scan code outside every table, whose
OS-computed Unicode string is the unprintable control character
`0x01`. -/
def unprintableEvent : NativeEvent :=
  { eventType := kCGEventKeyDown, vkField := 0x100, flags := 0, subtype := 0,
    data1 := 0, data2 := 0, location := (0, 0), nsFlags := 0, timestamp := 0,
    windowNumber := 0, context := 0, unicodeString := "\x01", malformed := false }

/-- A key-down event on the semicolon scan code with Control held: the
OS computes the control character `0x01`, and resolution goes through
the symbol table. -/
def ctrlSymbolEvent : NativeEvent :=
  { eventType := kCGEventKeyDown, vkField := 0x29,
    flags := kCGEventFlagMaskControl, subtype := 0, data1 := 0, data2 := 0,
    location := (0, 0), nsFlags := 0, timestamp := 0, windowNumber := 0,
    context := 0, unicodeString := "\x01", malformed := false }

/-- The event synthesized for a press of `space` with modifiers
`{ctrl, shift}`. -/
def spaceCtrlShiftEvent : NativeEvent :=
  { eventType := kCGEventKeyDown, vkField := 0x31,
    flags := kCGEventFlagMaskControl ||| kCGEventFlagMaskShift, subtype := 0,
    data1 := 0, data2 := 0, location := (0, 0), nsFlags := 0, timestamp := 0,
    windowNumber := 0, context := 0, unicodeString := "", malformed := false }

/-- A flags-changed event whose scan code decodes to `tab`, a key with
no entry in the modifier-flag table. -/
def flagsChangedTabEvent : NativeEvent :=
  { eventType := kCGEventFlagsChanged, vkField := 0x30,
    flags := kCGEventFlagMaskControl, subtype := 0, data1 := 0, data2 := 0,
    location := (0, 0), nsFlags := 0, timestamp := 0, windowNumber := 0,
    context := 0, unicodeString := "", malformed := false }

/-! ### Helper lemmas -/

/-- A successful dict lookup returns an entry of the dict. -/
theorem dictGet_mem {α β : Type} [DecidableEq α] (d : List (α × β)) (k : α) (v : β)
    (h : dictGet d k = some v) : (k, v) ∈ d := by
  induction d with
  | nil => simp [dictGet] at h
  | cons hd tl ih =>
    obtain ⟨k0, v0⟩ := hd
    simp only [dictGet] at h
    split at h
    · rename_i heq
      cases h
      subst heq
      exact List.mem_cons_self _ _
    · exact List.mem_cons_of_mem _ (ih h)

/-- Every media entry of the decode table (`is_media = True` in its
pair) maps to a media key, never to `caps_lock`. -/
theorem special_media_value_not_caps :
    ∀ p ∈ SPECIAL_KEYS, p.1.2 = some true → p.2 ≠ KeyName.caps_lock := by decide

/-- A system-defined event never decodes to the `caps_lock` enum
member: its decode lookup carries `is_media = True`, and no media entry
of the table maps to `caps_lock`. -/
theorem systemDefined_decoded_not_caps (ev : NativeEvent)
    (h : ev.eventType = NSSystemDefined) :
    decodedKey ev ≠ some (KeyUnion.named KeyName.caps_lock) := by
  intro hcontra
  by_cases hm : ev.malformed
  · simp [decodedKey, eventToKey, hm] at hcontra
  · cases hg : dictGet SPECIAL_KEYS (some ev.vkField, some true) with
    | none =>
      simp only [decodedKey, eventToKey, hm, h] at hcontra
      simp only [if_true, eq_self_iff_true, Bool.false_eq_true, if_false] at hcontra
      rw [hg] at hcontra
      by_cases h1 : (!isPrintable ev.unicodeString && (dictGet SYMBOLS ev.vkField).isSome
          && (ev.flags &&& kCGEventFlagMaskControl != 0)) = true
      · simp [h1] at hcontra
      · by_cases h2 : ev.unicodeString.length > 0
        · simp [h1, h2] at hcontra
        · simp [h1, h2] at hcontra
    | some k =>
      simp only [decodedKey, eventToKey, hm, h] at hcontra
      simp only [if_true, eq_self_iff_true, Bool.false_eq_true, if_false] at hcontra
      rw [hg] at hcontra
      simp only [Option.some.injEq, KeyUnion.named.injEq] at hcontra
      exact special_media_value_not_caps _ (dictGet_mem _ _ _ hg) rfl hcontra

/-! ### The claims -/

/-- C1, counterexample: the claim fails as stated.  Synthesizing a
press of `Key.alt` with no modifiers and interpreting the resulting
event yields a press of `Key.alt_l` (which shares `alt`'s virtual key
`0x3A` and is declared later), not of `Key.alt` itself. -/
theorem c1_roundtrip_counterexample :
    ((keyDef KeyName.alt).event [] [] true).map handle
        = some [Callback.press (some (KeyUnion.named KeyName.alt_l))]
      ∧ ((keyDef KeyName.alt).event [] [] true).map handle
        ≠ some [Callback.press (some (KeyUnion.named KeyName.alt))] := by
  decide

set_option maxRecDepth 10000 in
/-- C1 (amended): for every symbolic key in the `Key` enumeration
(ordinary and media alike), synthesizing a press event with an empty
modifier set and interpreting the resulting native event yields a
single press callback of the symbolic key that the decode table
assigns to the original key's `(vk, is_media)` pair — the last key
declared for that pair.  This is the original key itself for every key
not shadowed by a later declaration (all members except `alt`,
`alt_r`, `cmd`, `ctrl` and `shift`). -/
theorem c1_roundtrip_press :
    ∀ k : KeyName,
      ((keyDef k).event [] [] true).map handle
        = some [Callback.press
            ((dictGet SPECIAL_KEYS (keyPair k)).map KeyUnion.named)] := by
  decide

set_option maxRecDepth 10000 in
/-- C2: whenever two or more `Key` members share a `(vk, is_media)`
pair, the decode table built from the enumeration maps that pair to
the member declared last for it; in particular `(0x3A, absent)`
decodes to `alt_l`, declared after `alt`.  (The table build is a pure
fold over the declaration order, so the result is the same on every
build.) -/
theorem c2_collision_last_declared :
    (∀ k : KeyName,
       2 ≤ (keyOrder.filter (fun j => decide (keyPair j = keyPair k))).length →
       dictGet SPECIAL_KEYS (keyPair k)
         = (keyOrder.filter (fun j => decide (keyPair j = keyPair k))).getLast?)
    ∧ dictGet SPECIAL_KEYS (some 0x3A, none) = some KeyName.alt_l := by
  decide

/-- C2, witness: the pair of `alt` is genuinely shared, and its decode
result is the last key declared for it (`alt_l`). -/
theorem c2_collision_witness :
    dictGet SPECIAL_KEYS (keyPair KeyName.alt)
      = (keyOrder.filter
          (fun j => decide (keyPair j = keyPair KeyName.alt))).getLast? :=
  c2_collision_last_declared.1 KeyName.alt (by decide)

/-- C3: when the OS raises on a malformed event (unresolvable scan
code), the interpreter catches the error and the callback receives the
absent-key sentinel `None`: a press of `None` for a key-down event, a
release of `None` for a key-up event — never an exception escaping,
never a substitute key code. -/
theorem c3_malformed_no_key :
    ∀ ev : NativeEvent, ev.malformed = true →
      decodedKey ev = none
      ∧ (ev.eventType = kCGEventKeyDown → handle ev = [Callback.press none])
      ∧ (ev.eventType = kCGEventKeyUp → handle ev = [Callback.release none]) := by
  intro ev h
  have hk : decodedKey ev = none := by simp [decodedKey, eventToKey, h]
  refine ⟨hk, ?_, ?_⟩ <;> intro ht <;>
    simp [handle, hk, ht, kCGEventKeyDown, kCGEventKeyUp]

/-- C3, witness: a malformed key-down event with scan code 9999
produces exactly one press callback carrying the absent-key sentinel. -/
theorem c3_malformed_no_key_witness :
    decodedKey malformedEvent = none
      ∧ handle malformedEvent = [Callback.press none] := by
  have h := c3_malformed_no_key malformedEvent (by decide)
  exact ⟨h.1, h.2.1 (by decide)⟩

/-- C4: for a system-defined event with the media-keys subtype, the
interpreter takes the high 16 bits of `data1` as the scan-code
candidate and looks up `(candidate, is_media=True)` in the decode
table; when the pair is absent it performs no callback at all, and
when present it reports a press exactly when bits 8–15 of the low
16-bit status field equal `0x0a`, and a release for any other value. -/
theorem c4_media_subtype_decode :
    ∀ ev : NativeEvent, ev.eventType = NSSystemDefined →
      ev.subtype = kSystemDefinedEventMediaKeysSubtype →
      handle ev =
        (match dictGet SPECIAL_KEYS
            (some ((ev.data1 &&& 0xffff0000) >>> 16), some true) with
         | some k =>
             if ((ev.data1 &&& 0x0000ffff) &&& 0xff00) >>> 8 = 0xa then
               [Callback.press (some (KeyUnion.named k))]
             else
               [Callback.release (some (KeyUnion.named k))]
         | none => []) := by
  intro ev h hs
  have hnc := systemDefined_decoded_not_caps ev h
  simp [handle, h, hs, hnc, NSSystemDefined, kCGEventKeyDown, kCGEventKeyUp,
    kSystemDefinedEventMediaKeysSubtype]

/-- C4, witness: `data1 = (0x10 << 16) | (0x0a << 8)` reports a press
of the play/pause media key (scan code `0x10`). -/
theorem c4_media_subtype_witness :
    handle mediaPlayEvent
      = [Callback.press (some (KeyUnion.named KeyName.media_play_pause))] := by
  have h := c4_media_subtype_decode mediaPlayEvent (by decide) (by decide)
  rw [h]; decide

/-- C5: for every key and every modifier set, the synthesized event's
flag word is exactly the disjunction of the alt/cmd/ctrl/shift native
bits selected by membership of the bare symbols `Key.alt`, `Key.cmd`,
`Key.ctrl`, `Key.shift` in the modifier set — no other bits.  In
particular `space` with `{ctrl, shift}` sets exactly the ctrl and
shift bits, and `{alt_l}` alone sets nothing. -/
theorem c5_modifier_flag_bits :
    (∀ (kc : KeyCode) (mods : List KeyName) (mapping : List (String × Nat))
       (pressed : Bool) (ev : NativeEvent),
       kc.event mods mapping pressed = some ev →
       ev.flags
         = 0
           ||| (if KeyName.alt ∈ mods then kCGEventFlagMaskAlternate else 0)
           ||| (if KeyName.cmd ∈ mods then kCGEventFlagMaskCommand else 0)
           ||| (if KeyName.ctrl ∈ mods then kCGEventFlagMaskControl else 0)
           ||| (if KeyName.shift ∈ mods then kCGEventFlagMaskShift else 0))
    ∧ ((keyDef .space).event [.ctrl, .shift] [] true).map NativeEvent.flags
        = some (kCGEventFlagMaskControl ||| kCGEventFlagMaskShift)
    ∧ ((keyDef .space).event [.alt_l] [] true).map NativeEvent.flags
        = some 0 := by
  refine ⟨?_, by decide, by decide⟩
  intro kc mods mapping pressed ev h
  by_cases hm : kc.is_media = some true
  · cases hv : kc.vk with
    | none => simp [KeyCode.event, hm, hv] at h
    | some v =>
      simp only [KeyCode.event, hm, hv, if_true, eq_self_iff_true,
        Option.map_some', Option.some.injEq] at h
      subst h
      split <;> simp [modFlags]
  · simp only [KeyCode.event, hm, if_false, Option.map_some',
      Option.some.injEq] at h
    subst h
    split <;> simp [modFlags]

/-- C5, witness: synthesizing `space` with `{ctrl, shift}` yields the
concrete event `spaceCtrlShiftEvent`, whose flag word the theorem pins
to exactly the ctrl and shift bits. -/
theorem c5_modifier_flag_witness :
    spaceCtrlShiftEvent.flags
      = 0
        ||| (if KeyName.alt ∈ [KeyName.ctrl, KeyName.shift]
             then kCGEventFlagMaskAlternate else 0)
        ||| (if KeyName.cmd ∈ [KeyName.ctrl, KeyName.shift]
             then kCGEventFlagMaskCommand else 0)
        ||| (if KeyName.ctrl ∈ [KeyName.ctrl, KeyName.shift]
             then kCGEventFlagMaskControl else 0)
        ||| (if KeyName.shift ∈ [KeyName.ctrl, KeyName.shift]
             then kCGEventFlagMaskShift else 0) :=
  c5_modifier_flag_bits.1 (keyDef .space) [.ctrl, .shift] [] true
    spaceCtrlShiftEvent (by decide)

/-- C6: an event that is not key-down and not key-up but whose decoded
key is the `caps_lock` member (the single caps-lock toggle
notification) produces exactly two callbacks: a press of caps lock
followed by a release of caps lock, in that order. -/
theorem c6_caps_lock_press_release :
    ∀ ev : NativeEvent, ev.eventType ≠ kCGEventKeyDown →
      ev.eventType ≠ kCGEventKeyUp →
      decodedKey ev = some (KeyUnion.named KeyName.caps_lock) →
      handle ev = [Callback.press (some (KeyUnion.named KeyName.caps_lock)),
                   Callback.release (some (KeyUnion.named KeyName.caps_lock))] := by
  intro ev h1 h2 h3
  simp [handle, h1, h2, h3]

/-- C6, witness: a flags-changed event on the caps-lock scan code
yields the press/release pair. -/
theorem c6_caps_lock_witness :
    handle capsToggleEvent
      = [Callback.press (some (KeyUnion.named KeyName.caps_lock)),
         Callback.release (some (KeyUnion.named KeyName.caps_lock))] :=
  c6_caps_lock_press_release capsToggleEvent (by decide) (by decide) (by decide)

/-- C7: synthesizing any media key (in either polarity) builds a
system-defined event with the media-keys subtype whose `data1` packs
`(virtual_key << 16) | (press_code << 8)` — `0x0a` for a press, `0x0b`
for a release — and whose location, window-number and context fields
are the fixed sentinels `(0, 0)`, `0` and `0`. -/
theorem c7_media_synthesis_packing :
    ∀ (kc : KeyCode) (mods : List KeyName) (mapping : List (String × Nat))
      (pressed : Bool) (v : Nat),
      kc.is_media = some true → kc.vk = some v →
      (kc.event mods mapping pressed).map
          (fun e => (e.eventType, e.subtype, e.data1,
                     e.location, e.windowNumber, e.context))
        = some (NSSystemDefined, kSystemDefinedEventMediaKeysSubtype,
                (v <<< 16) ||| ((if pressed then 0xa else 0xb) <<< 8),
                ((0 : Int), (0 : Int)), (0 : Int), (0 : Int)) := by
  intro kc mods mapping pressed v hm hv
  simp only [KeyCode.event, hm, hv, if_true, eq_self_iff_true, Option.map_some']
  split <;> rfl

/-- C7, witness: a press of `media_play_pause` (virtual key `0x10`)
packs `data1 = (0x10 << 16) | (0x0a << 8)` with the sentinel fields. -/
theorem c7_media_synthesis_witness :
    ((keyDef .media_play_pause).event [] [] true).map
        (fun e => (e.eventType, e.subtype, e.data1,
                   e.location, e.windowNumber, e.context))
      = some (NSSystemDefined, kSystemDefinedEventMediaKeysSubtype,
              (0x10 <<< 16) ||| (0xa <<< 8),
              ((0 : Int), (0 : Int)), (0 : Int), (0 : Int)) := by
  have h := c7_media_synthesis_packing (keyDef .media_play_pause) [] [] true 0x10
    (by decide) (by decide)
  simpa using h

/-- C8, counterexample: the claim fails as stated.  A key code whose
`virtual_key` is present but equal to `0` does not keep scan code `0`:
Python's `or` is truthiness-based, so the resolution falls through to
the layout lookup of the character — here `'a' ↦ 5`, and the event
carries scan code `5`, not `0`. -/
theorem c8_resolution_counterexample :
    ((KeyCode.mk (some 0) (some "a") none).event [] [("a", 5)] true).map
        NativeEvent.vkField
        = some 5
      ∧ ((KeyCode.mk (some 0) (some "a") none).event [] [("a", 5)] true).map
        NativeEvent.vkField
        ≠ some 0 := by
  decide

/-- C8 (amended): synthesis resolves the scan code as the key's own
`virtual_key` whenever that attribute is present and nonzero; when it
is absent or zero (Python truthiness) it falls back to looking up the
key's character in the layout mapping.  An ordinary event uses the
resolved scan code (`0` if none resolves), and when no scan code
resolves and a character is present the event carries that character,
unchanged, as its Unicode string payload (otherwise the payload stays
empty). -/
theorem c8_scan_code_resolution :
    ∀ (kc : KeyCode) (mods : List KeyName) (mapping : List (String × Nat))
      (pressed : Bool),
      kc.is_media ≠ some true →
      ((kc.event mods mapping pressed).map
          (fun e => (e.vkField, e.unicodeString))
        = some ((resolveVk kc mapping).getD 0,
                if (resolveVk kc mapping).isNone && kc.char.isSome
                then kc.char.getD "" else ""))
      ∧ (∀ v : Nat, kc.vk = some v → v ≠ 0 → resolveVk kc mapping = some v)
      ∧ (kc.vk = none ∨ kc.vk = some 0 →
          resolveVk kc mapping = mappingGet mapping kc.char) := by
  intro kc mods mapping pressed hm
  refine ⟨?_, ?_, ?_⟩
  · simp only [KeyCode.event, hm, if_false, Option.map_some']
    split <;> rfl
  · intro v hv hnz
    simp [resolveVk, hv, hnz]
  · rintro (hv | hv) <;> simp [resolveVk, hv]

/-- C8, witness: a key code built from the character `£` with no
virtual key resolves no scan code against an empty layout; the
synthesized event uses scan code `0` and carries `£` as its Unicode
payload. -/
theorem c8_scan_code_resolution_witness :
    ((KeyCode.from_char "£" none).event [] [] true).map
        (fun e => (e.vkField, e.unicodeString))
      = some (0, "£") := by
  have h := c8_scan_code_resolution (KeyCode.from_char "£" none) [] [] true
    (by decide)
  exact h.1.trans (by decide)

/-- C9, counterexample: the claim fails as stated.  For a direct key
event on scan code `0x100` (absent from both the special-key table and
the symbol table) whose OS-computed Unicode string is the unprintable
control character `0x01`, the claim demands the bare scan-code
fallback, but the interpreter builds a character-keyed key code from
the unprintable string: printability only gates the symbol-table
branch, not the character branch. -/
theorem c9_resolution_counterexample :
    eventToKey unprintableEvent
        = Except.ok (KeyUnion.code ⟨some 0x100, some "\x01", none⟩)
      ∧ isPrintable "\x01" = false
      ∧ dictGet SYMBOLS 0x100 = none
      ∧ eventToKey unprintableEvent
        ≠ Except.ok (KeyUnion.code ⟨some 0x100, none, none⟩) := by
  decide

/-- C9 (amended): in the interpreter's scan-code resolution, after the
exact symbolic-table lookup fails, the Control-chord symbol table is
consulted first — it applies when the OS-computed Unicode string is
not printable, the scan code is in the symbol table, and the Control
flag is held; otherwise a character-keyed key code is built from the
OS-computed string whenever it is non-empty (printable or not); only
when it is empty does resolution fall back to a bare scan-code key
code with no character. -/
theorem c9_resolution_order :
    ∀ ev : NativeEvent, ev.malformed = false →
      dictGet SPECIAL_KEYS (some ev.vkField,
          if ev.eventType = NSSystemDefined then some true else none) = none →
      ((isPrintable ev.unicodeString = false →
          (dictGet SYMBOLS ev.vkField).isSome = true →
          ev.flags &&& kCGEventFlagMaskControl ≠ 0 →
          eventToKey ev
            = Except.ok (KeyUnion.code
                ⟨some ev.vkField, dictGet SYMBOLS ev.vkField, none⟩))
       ∧ ((isPrintable ev.unicodeString = true
             ∨ dictGet SYMBOLS ev.vkField = none
             ∨ ev.flags &&& kCGEventFlagMaskControl = 0) →
          0 < ev.unicodeString.length →
          eventToKey ev
            = Except.ok (KeyUnion.code
                ⟨some ev.vkField, some ev.unicodeString, none⟩))
       ∧ ((isPrintable ev.unicodeString = true
             ∨ dictGet SYMBOLS ev.vkField = none
             ∨ ev.flags &&& kCGEventFlagMaskControl = 0) →
          ev.unicodeString.length = 0 →
          eventToKey ev
            = Except.ok (KeyUnion.code ⟨some ev.vkField, none, none⟩))) := by
  intro ev hmal hspec
  refine ⟨?_, ?_, ?_⟩
  · intro hp hsym hctrl
    have hg : (!isPrintable ev.unicodeString && (dictGet SYMBOLS ev.vkField).isSome
        && (ev.flags &&& kCGEventFlagMaskControl != 0)) = true := by
      simp [hp, hsym, hctrl]
    simp [eventToKey, hmal, hspec, hg]
  · intro hob hlen
    have hg : (!isPrintable ev.unicodeString && (dictGet SYMBOLS ev.vkField).isSome
        && (ev.flags &&& kCGEventFlagMaskControl != 0)) = false := by
      rcases hob with h | h | h <;> simp [h]
    simp [eventToKey, hmal, hspec, hg, hlen]
  · intro hob hlen
    have hg : (!isPrintable ev.unicodeString && (dictGet SYMBOLS ev.vkField).isSome
        && (ev.flags &&& kCGEventFlagMaskControl != 0)) = false := by
      rcases hob with h | h | h <;> simp [h]
    simp [eventToKey, hmal, hspec, hg, hlen]

/-- C9, witness: the semicolon scan code `0x29` under Control with an
unprintable OS string resolves through the symbol table to a
character-keyed `;` key code. -/
theorem c9_resolution_order_witness :
    eventToKey ctrlSymbolEvent
      = Except.ok (KeyUnion.code ⟨some 0x29, some ";", none⟩) := by
  have h := c9_resolution_order ctrlSymbolEvent (by decide) (by decide)
  exact (h.1 (by decide) (by decide) (by decide)).trans (by decide)

/-- C10: any event reaching the fallback modifier-change branch (not
key-down, not key-up, not system-defined, not decoded as caps lock)
whose decoded key has no entry in the modifier-flag table — including
the absent-key sentinel and non-modifier keys — is reported as a
release, never as a press: the dict lookup defaults to `0`, and
`flags & 0` is never nonzero. -/
theorem c10_unknown_modifier_release :
    ∀ ev : NativeEvent,
      ev.eventType ≠ kCGEventKeyDown → ev.eventType ≠ kCGEventKeyUp →
      ev.eventType ≠ NSSystemDefined →
      decodedKey ev ≠ some (KeyUnion.named KeyName.caps_lock) →
      modifierFlagsLookup (decodedKey ev) = none →
      handle ev = [Callback.release (decodedKey ev)] := by
  intro ev h1 h2 h3 h4 h5
  simp [handle, h1, h2, h3, h4, modifierFlagsGet, h5]

/-- C10, witness: a flags-changed event decoding to `tab` (no
modifier-flag entry) is reported as a release of `tab`, even though
the event's flag word is nonzero. -/
theorem c10_unknown_modifier_release_witness :
    handle flagsChangedTabEvent
      = [Callback.release (some (KeyUnion.named KeyName.tab))] := by
  have h := c10_unknown_modifier_release flagsChangedTabEvent
    (by decide) (by decide) (by decide) (by decide) (by decide)
  rw [h]; decide

end Darwin
